import Mathlib

/-!
Verification of the core of the rust_lox_interpreter repository: a shallow
embedding of the parser (src/parser.rs), the expression AST and runtime value
type (src/expressions/expression.rs), and the expression evaluator
(src/expressions/visitor.rs), together with spec-modelled definitions for the
parts of the repository that are referenced by those files but whose sources
are not available (the environment module, the runtime Method/Class objects
and the statement interpreter), following sections 4.3, 4.4 and 4.5 of the
specification.

Conventions of the embedding:
- Rust isize is modelled as unbounded Int (none of the verified
  properties reaches the overflow region); integer division or remainder by zero, which panics
  in Rust, is modelled as a runtime error.
- Rust panics (explicit panic calls, unwrap on None, out-of-bounds indexing)
  are modelled as the error value RErr.panic with the panic message.
- All recursive functions take an explicit fuel argument; exhausting the fuel
  yields the distinguished error RErr.fuel, so genuine divergence of the Rust
  code shows up as running out of every amount of fuel.
- Shared mutable runtime state (Rc RefCell environments and value cells) is
  modelled by a Store holding a heap of environments and a heap of value
  cells, addressed by position; the parser cursor over the token vector is
  modelled by the list of remaining tokens (the Rust cursor only moves
  forward).
-/

set_option maxRecDepth 10000

namespace RustLox

/-- Token kinds, following the TokenType enum used by src/parser.rs and the
token contract in section 3 of the specification. -/
inductive TokenType where
  | Number | String | Identifier | True | False | Nil
  | Plus | Minus | Star | Slash | Percent
  | Bang | BangEqual | Equal | EqualEqual
  | Greater | GreaterEqual | Less | LessEqual
  | And | Or
  | LeftParen | RightParen | LeftBrace | RightBrace
  | Comma | Dot | Semicolon
  | Var | Class | Fun | If | Else | While | For | Return | Print
  | EOF
  deriving DecidableEq, Repr

/-- A scanner token: kind plus lexeme text, the two fields the parser reads. -/
structure Token where
  token_type : TokenType
  value : String
  deriving DecidableEq, Repr

/-- The Expression AST, a faithful copy of the Expression enum in
src/expressions/expression.rs (including the legacy Expr, Equality and
Comparison variants that the evaluator treats as dead code). -/
inductive Expression where
  | Expr (value : String) (equality : Option Expression)
  | Equality (token : Token) (value : String)
  | Comparison (token_type : TokenType) (value : String)
  | GroupingExpr (value : Expression)
  | BinaryExpr (token : Token) (rhs : Expression) (lhs : Expression)
  | UnaryExpr (token : Token) (rhs : Expression)
  | LiteralExpr (token_type : TokenType) (value : String)
  | VariableExpr (token_type : TokenType) (value : String)
  | Assignment (identifier : Expression) (value : Expression)
  | Logical (token : Token) (rhs : Expression) (lhs : Expression)
  | Call (identifier : Expression) (args : List Expression)
  | Get (expr : Expression) (name : String)

/-- The Statement AST as built by src/parser.rs (the statement module itself
is not under src/, but every constructor and field is pinned down by the
construction sites in the parser). -/
inductive Statement where
  | Stmt (expr : Expression)
  | PrintStatement (expr : Expression)
  | VarDeclaration (expr : Option Expression) (identifier : Expression)
  | BlockStatement (statements : List Statement)
  | IfStatement (expr : Expression) (body : Statement) (else_body : Option Statement)
  | WhileStatement (expr : Expression) (body : Statement)
  | ForStatement (initiation : Option Statement) (condition : Option Statement)
      (increment : Option Statement) (body : Statement)
  | FunStatement (identifier : Token) (args : List Expression) (block : Option Statement)
  | ReturnStatement (expr : Option Expression)
  | ClassDeclaration (identifier : Token) (functions : List Statement)

/-- Runtime value tags, a faithful copy of ExprResType in
src/expressions/expression.rs. -/
inductive ExprResType where
  | String | Number | Boolean | Identifier | Function | Class | Instance | Nil
  deriving DecidableEq, Repr

/-- Runtime errors of the embedding: panic carries the Rust panic message,
fuel marks exhaustion of the step budget. -/
inductive RErr where
  | panic (msg : String)
  | fuel
  deriving DecidableEq, Repr

mutual
/-- The runtime value struct ExpressionRes of src/expressions/expression.rs:
a tag plus one payload slot per kind. Rc references to runtime objects are
modelled by the object value itself; environments inside them are heap
addresses into the Store. -/
inductive ExpressionRes where
  | mk (type_ : ExprResType) (str : String) (number : Int) (boolean : Bool)
      (method : Option Method) (class_ : Option ClassObj)
      (instance_ : Option InstanceObj)

/-- The runtime Method object (src/program/runtime.rs is not under src/): its
fields are pinned down by the uses in src/expressions/visitor.rs — name, the
parameter list as Identifier-tagged ExpressionRes values, the body block, and
the captured environment (a Store address). -/
inductive Method where
  | mk (name : String) (args : List ExpressionRes) (body : Statement)
      (captured_env : Nat)

/-- The runtime Class object, per the uses in src/expressions/visitor.rs and
section 3 of the specification: name, constructor parameters, methods. -/
inductive ClassObj where
  | mk (name : String) (args : List ExpressionRes) (methods : List Method)

/-- The runtime Instance object: class reference plus the instance
environment, per InstanceObj in section 3 of the specification. -/
inductive InstanceObj where
  | mk (class_ : ClassObj) (env : Nat)
end

def ExpressionRes.type_ : ExpressionRes → ExprResType
  | .mk t _ _ _ _ _ _ => t

def ExpressionRes.str : ExpressionRes → String
  | .mk _ s _ _ _ _ _ => s

def ExpressionRes.number : ExpressionRes → Int
  | .mk _ _ n _ _ _ _ => n

def ExpressionRes.boolean : ExpressionRes → Bool
  | .mk _ _ _ b _ _ _ => b

def ExpressionRes.method : ExpressionRes → Option Method
  | .mk _ _ _ _ m _ _ => m

def ExpressionRes.class_ : ExpressionRes → Option ClassObj
  | .mk _ _ _ _ _ c _ => c

def ExpressionRes.instance_ : ExpressionRes → Option InstanceObj
  | .mk _ _ _ _ _ _ i => i

def Method.name : Method → String
  | .mk n _ _ _ => n

def Method.args : Method → List ExpressionRes
  | .mk _ a _ _ => a

def Method.body : Method → Statement
  | .mk _ _ b _ => b

def Method.captured_env : Method → Nat
  | .mk _ _ _ e => e

def ClassObj.name : ClassObj → String
  | .mk n _ _ => n

def ClassObj.args : ClassObj → List ExpressionRes
  | .mk _ a _ => a

def ClassObj.methods : ClassObj → List Method
  | .mk _ _ m => m

def InstanceObj.class_ : InstanceObj → ClassObj
  | .mk c _ => c

def InstanceObj.env : InstanceObj → Nat
  | .mk _ e => e

/-- ExpressionRes::copy from src/expressions/expression.rs: clones the tag
and the primitive payloads, and sets the method, class and instance slots to
None. -/
def ExpressionRes.copy (p : ExpressionRes) : ExpressionRes :=
  .mk p.type_ p.str p.number p.boolean none none none

def ExpressionRes.from_str (s : String) : ExpressionRes :=
  .mk .String s 0 false none none none

def ExpressionRes.from_number (n : Int) : ExpressionRes :=
  .mk .Number "" n false none none none

def ExpressionRes.from_bool (b : Bool) : ExpressionRes :=
  .mk .Boolean "" 0 b none none none

def ExpressionRes.from_variable (s : String) : ExpressionRes :=
  .mk .Identifier s 0 false none none none

def ExpressionRes.from_method (m : Method) : ExpressionRes :=
  .mk .Function m.name 0 false (some m) none none

def ExpressionRes.from_class (c : ClassObj) : ExpressionRes :=
  .mk .Class ("class " ++ c.name) 0 false none (some c) none

def ExpressionRes.from_instance (i : InstanceObj) : ExpressionRes :=
  .mk .Instance "instance of object" 0 false none none (some i)

def ExpressionRes.from_none : ExpressionRes :=
  .mk .Nil "nil" 0 false none none none

/-- ExpressionRes::get_params_method: the parameter names of the held method.
The Rust original unwraps the method option; every call site has already
established that it is present. -/
def ExpressionRes.get_params_method (v : ExpressionRes) : List String :=
  match v.method with
  | none => []
  | some m => m.args.map (fun a => a.str)

def ExpressionRes.eq_type (a b : ExpressionRes) : Bool :=
  a.type_ == b.type_

/-- ExpressionRes::print, the canonical rendering (the Instance arm of the
Rust source debug-formats the shared pointer; rendered here as a fixed tag
since none of the verified properties depends on it). -/
def ExpressionRes.print (v : ExpressionRes) : String :=
  match v.type_ with
  | .String => v.str
  | .Number => toString v.number
  | .Boolean => if v.boolean then "true" else "false"
  | .Nil => "nil"
  | .Identifier => v.str
  | .Function => "function :" ++ v.str
  | .Class => "class :" ++ v.str
  | .Instance => "instance : object"

/-- Clone of a method with its captured environment replaced, the
(*method).clone() followed by overwriting captured_env seen in the Class-call
branch of src/expressions/visitor.rs. -/
def Method.withCaptured (m : Method) (e : Nat) : Method :=
  .mk m.name m.args m.body e

/-- One lexical scope: bindings from names to value-cell addresses plus an
optional enclosing scope, per section 4.3 of the specification. -/
structure Environment where
  vars : List (String × Nat)
  parent : Option Nat

/-- The runtime heap: environments and value cells addressed by position,
plus the stdout lines produced by print statements. -/
structure Store where
  envs : List Environment
  cells : List ExpressionRes
  output : List String

def Store.getEnv (s : Store) (i : Nat) : Option Environment :=
  s.envs.get? i

def Store.setEnv (s : Store) (i : Nat) (e : Environment) : Store :=
  { s with envs := s.envs.set i e }

def Store.getCell (s : Store) (i : Nat) : Option ExpressionRes :=
  s.cells.get? i

def Store.setCell (s : Store) (i : Nat) (v : ExpressionRes) : Store :=
  { s with cells := s.cells.set i v }

/-- Allocate a fresh empty environment; Environment::new when the parent is
none, Environment::new_with_enclosing otherwise. The fresh address is the
current length of the environment heap. -/
def Store.allocEnv (s : Store) (parent : Option Nat) : Store :=
  { s with envs := s.envs ++ [⟨[], parent⟩] }

def envLookupIn (e : Environment) (name : String) : Option Nat :=
  (e.vars.find? (fun p => p.1 == name)).map (fun p => p.2)

/-- Modelled from the spec: Environment lookup walks the parent chain and
fails if the name is not found (section 4.3; src/env/environment.rs is not
under src/). The auxiliary fuel only guards against malformed cyclic parent
chains, which the interpreter never creates. -/
def lookupVarAux : Nat → Store → Nat → String → Option Nat
  | 0, _, _, _ => none
  | fuel+1, s, envId, name =>
    match s.getEnv envId with
    | none => none
    | some e =>
      match envLookupIn e name with
      | some c => some c
      | none =>
        match e.parent with
        | none => none
        | some p => lookupVarAux fuel s p name

def Store.lookupVar (s : Store) (envId : Nat) (name : String) : Option Nat :=
  lookupVarAux (s.envs.length + 1) s envId name

/-- Modelled from the spec: define(name, value) always creates or overwrites
the binding in the current scope (section 4.3), pointing it at a fresh value
cell. -/
def Store.define_variable (s : Store) (envId : Nat) (name : String)
    (v : ExpressionRes) : Store :=
  let cid := s.cells.length
  let s1 := { s with cells := s.cells ++ [v] }
  match s1.getEnv envId with
  | none => s1
  | some e =>
    s1.setEnv envId ⟨(name, cid) :: e.vars.filter (fun p => p.1 != name), e.parent⟩

/-- Modelled from the spec: assign_existing walks the parent chain and fails
if the name is not defined anywhere (section 4.3); the failure is a panic per
the failure semantics of section 4.5. -/
def Store.assign_to_existing (s : Store) (envId : Nat) (name : String)
    (v : ExpressionRes) : Except RErr Store :=
  match s.lookupVar envId name with
  | none => .error (.panic "assign to undefined variable")
  | some c => .ok (s.setCell c v)

/-- Modelled from the spec: remove(name) deletes the binding from the nearest
scope that has it (section 4.3); removing an absent name is a no-op. -/
def removeVarAux : Nat → Store → Nat → String → Store
  | 0, s, _, _ => s
  | fuel+1, s, envId, name =>
    match s.getEnv envId with
    | none => s
    | some e =>
      if (e.vars.find? (fun p => p.1 == name)).isSome then
        s.setEnv envId ⟨e.vars.filter (fun p => p.1 != name), e.parent⟩
      else
        match e.parent with
        | none => s
        | some p => removeVarAux fuel s p name

def Store.remove_var (s : Store) (envId : Nat) (name : String) : Store :=
  removeVarAux (s.envs.length + 1) s envId name

/-- The copying identifier dereference used throughout
src/expressions/visitor.rs: when the operand result is Identifier-tagged,
look the name up and substitute ExpressionRes::copy of the cell content; a
missing variable panics (failure semantics, section 4.5). -/
def derefCopy (s : Store) (envId : Nat) (v : ExpressionRes) :
    Except RErr ExpressionRes :=
  if v.type_ = .Identifier then
    match s.lookupVar envId v.str with
    | none => .error (.panic "lookup of undefined variable")
    | some c =>
      match s.getCell c with
      | none => .error (.panic "dangling cell")
      | some w => .ok (ExpressionRes.copy w)
  else .ok v

/-- Modelled from the spec: identifier resolution inside the statement
interpreter (src/src/statements is not under src/) substitutes the bound
value; the full value is substituted, not the payload-stripping copy, since
the closure scenarios of section 8 require function payloads to survive a
return or a variable declaration. -/
def derefFull (s : Store) (envId : Nat) (v : ExpressionRes) :
    Except RErr ExpressionRes :=
  if v.type_ = .Identifier then
    match s.lookupVar envId v.str with
    | none => .error (.panic "lookup of undefined variable")
    | some c =>
      match s.getCell c with
      | none => .error (.panic "dangling cell")
      | some w => .ok w
  else .ok v

/-- Statement results as consumed by src/expressions/visitor.rs (its match on
Method::call covers exactly Void and Expr): Void for normal completion, Expr
for a return value propagating outward, the error-like return propagation
described in section 9 of the specification. -/
inductive StatementRes where
  | Void
  | Expr (res : ExpressionRes)

/-- Modelled from the spec: Class::call (src/program/runtime.rs is not under
src/) constructs InstanceObj with the class and the provided methods
environment (section 4.5, call on a Class, step 3). -/
def ClassObj.call (c : ClassObj) (envId : Nat) : InstanceObj :=
  .mk c envId

/-- The per-method rebinding loop of the Class-call branch in
src/expressions/visitor.rs: each method template is cloned, its captured_env
overwritten with the fields environment, and defined by name in the methods
environment. -/
def defineMethods : List Method → Nat → Nat → Store → Store
  | [], _, _, s => s
  | m :: rest, efId, emId, s =>
    defineMethods rest efId emId
      (s.define_variable emId m.name (ExpressionRes.from_method (m.withCaptured efId)))

/-- Faithful model of str::parse::<isize> on the decimal literals the scanner
produces: an optional leading minus sign followed by decimal digits (written
out structurally so that concrete literals reduce definitionally). -/
def digitsToNatAux : List Char → Nat → Option Nat
  | [], acc => some acc
  | c :: rest, acc =>
    if c.isDigit then digitsToNatAux rest (acc * 10 + (c.toNat - 48)) else none

def parseIsize (s : String) : Option Int :=
  match s.data with
  | [] => none
  | c :: rest =>
    if c = '-' then
      if rest = [] then none
      else (digitsToNatAux rest 0).map (fun n => -(n : Int))
    else (digitsToNatAux (c :: rest) 0).map (fun n => (n : Int))

/-- Convert a parameter expression of a function declaration (a VariableExpr)
to the Identifier-tagged ExpressionRes stored in Method.args, as the uses of
arg.str in src/expressions/visitor.rs require. -/
def exprToParam : Expression → ExpressionRes
  | .VariableExpr _ n => ExpressionRes.from_variable n
  | _ => ExpressionRes.from_none

/-- Modelled from the spec: a FunStatement inside a class declaration becomes
a method template capturing the current environment (section 4.5, FunDecl and
ClassDecl rows). -/
def stmtToMethod (envId : Nat) : Statement → Option Method
  | .FunStatement identifier args (some b) =>
    some (.mk identifier.value (args.map exprToParam) b envId)
  | _ => none

mutual
/-- Faithful translation of ExpressionInterpreter::eval from
src/expressions/visitor.rs. The state is the Store plus the current
environment address (the ProgramEnvs the interpreter holds); panics become
RErr.panic errors. The embedded calls to Method::call and Class::call, whose
sources are not under src/, are the mutual methodCall below and ClassObj.call
above, both modelled from the spec. -/
def eval : Nat → Expression → Nat → Store → Except RErr (ExpressionRes × Store)
  | 0, _, _, _ => .error .fuel
  | fuel+1, e, env, s =>
    match e with
    | .Expr _ equality =>
      match equality with
      | none => .ok (ExpressionRes.from_none, s)
      | some v => eval fuel v env s
    | .Equality _ _ => .ok (ExpressionRes.from_str "", s)
    | .Comparison _ _ => .ok (ExpressionRes.from_str "", s)
    | .GroupingExpr v => eval fuel v env s
    | .BinaryExpr token rhs lhs =>
      match eval fuel rhs env s with
      | .error er => .error er
      | .ok (rhs0, s1) =>
        match eval fuel lhs env s1 with
        | .error er => .error er
        | .ok (lhs0, s2) =>
          match derefCopy s2 env rhs0 with
          | .error er => .error er
          | .ok rhs_res =>
            match derefCopy s2 env lhs0 with
            | .error er => .error er
            | .ok lhs_res =>
              if lhs_res.type_ = .Number ∧ lhs_res.eq_type rhs_res then
                match token.token_type with
                | .Greater =>
                  .ok (ExpressionRes.from_bool (decide (lhs_res.number > rhs_res.number)), s2)
                | .GreaterEqual =>
                  .ok (ExpressionRes.from_bool (decide (lhs_res.number ≥ rhs_res.number)), s2)
                | .Less =>
                  .ok (ExpressionRes.from_bool (decide (lhs_res.number < rhs_res.number)), s2)
                | .LessEqual =>
                  .ok (ExpressionRes.from_bool (decide (lhs_res.number ≤ rhs_res.number)), s2)
                | .EqualEqual =>
                  .ok (ExpressionRes.from_bool (decide (lhs_res.number = rhs_res.number)), s2)
                | .Minus =>
                  .ok (ExpressionRes.from_number (lhs_res.number - rhs_res.number), s2)
                | .Slash =>
                  -- Rust integer division panics on a zero divisor.
                  if rhs_res.number = 0 then .error (.panic "divide by zero")
                  else .ok (ExpressionRes.from_number (Int.tdiv lhs_res.number rhs_res.number), s2)
                | .Star =>
                  .ok (ExpressionRes.from_number (lhs_res.number * rhs_res.number), s2)
                | .Plus =>
                  .ok (ExpressionRes.from_number (lhs_res.number + rhs_res.number), s2)
                | .Percent =>
                  -- isize::rem_euclid, which panics on a zero divisor;
                  -- Int.emod is the Euclidean remainder.
                  if rhs_res.number = 0 then .error (.panic "divide by zero")
                  else .ok (ExpressionRes.from_number (Int.emod lhs_res.number rhs_res.number), s2)
                | _ => .ok (ExpressionRes.from_none, s2)
              else if lhs_res.type_ = .String ∧ lhs_res.eq_type rhs_res then
                match token.token_type with
                | .Plus => .ok (ExpressionRes.from_str (lhs_res.str ++ rhs_res.str), s2)
                | .EqualEqual =>
                  .ok (ExpressionRes.from_bool (lhs_res.str == rhs_res.str), s2)
                | _ => .ok (ExpressionRes.from_none, s2)
              else
                -- the source prints a diagnostic line here and yields Nil
                .ok (ExpressionRes.from_none, s2)
    | .UnaryExpr token rhs =>
      match eval fuel rhs env s with
      | .error er => .error er
      | .ok (rhs_res, s1) =>
        match rhs_res.type_, token.token_type with
        | .Number, .Minus => .ok (ExpressionRes.from_number (-rhs_res.number), s1)
        | .Boolean, .Bang => .ok (ExpressionRes.from_bool (!rhs_res.boolean), s1)
        | _, _ => .ok (ExpressionRes.from_none, s1)
    | .LiteralExpr token_type value =>
      match token_type with
      | .String => .ok (ExpressionRes.from_str value, s)
      | .Number =>
        -- str::parse::<isize> followed by unwrap
        match parseIsize value with
        | none => .error (.panic "number parse failed")
        | some n => .ok (ExpressionRes.from_number n, s)
      | .False => .ok (ExpressionRes.from_bool false, s)
      | .True => .ok (ExpressionRes.from_bool true, s)
      | _ => .ok (ExpressionRes.from_none, s)
    | .VariableExpr token_type value =>
      match token_type with
      | .Nil => .ok (ExpressionRes.from_none, s)
      | _ => .ok (ExpressionRes.from_variable value, s)
    | .Assignment identifier value =>
      match eval fuel identifier env s with
      | .error er => .error er
      | .ok (assignee, s1) =>
        match eval fuel value env s1 with
        | .error er => .error er
        | .ok (v, s2) =>
          match v.type_ with
          | .Identifier =>
            -- source bug kept faithfully: the right-hand identifier is looked
            -- up and ITS cell is replaced with a copy of the unresolved
            -- Identifier value; the left-hand target is never assigned
            match s2.lookupVar env v.str with
            | none => .error (.panic "lookup of undefined variable")
            | some c =>
              .ok (ExpressionRes.copy v, s2.setCell c (ExpressionRes.copy v))
          | .Function => .ok (v, s2)
          | .Nil => .ok (ExpressionRes.from_none, s2.remove_var env assignee.str)
          | _ =>
            match s2.assign_to_existing env assignee.str v with
            | .error er => .error er
            | .ok s3 => .ok (ExpressionRes.copy v, s3)
    | .Logical token rhs lhs =>
      match eval fuel rhs env s with
      | .error er => .error er
      | .ok (rhs0, s1) =>
        match eval fuel lhs env s1 with
        | .error er => .error er
        | .ok (lhs0, s2) =>
          match derefCopy s2 env rhs0 with
          | .error er => .error er
          | .ok rhs_res =>
            match derefCopy s2 env lhs0 with
            | .error er => .error er
            | .ok lhs_res =>
              if lhs_res.type_ = .Boolean ∧ lhs_res.eq_type rhs_res then
                match token.token_type with
                | .And =>
                  .ok (ExpressionRes.from_bool (lhs_res.boolean && rhs_res.boolean), s2)
                | .Or =>
                  .ok (ExpressionRes.from_bool (lhs_res.boolean || rhs_res.boolean), s2)
                | _ => .error (.panic "cannot evaluate logical expression")
              else .error (.panic "cannot evaluate logical expression")
    | .Call identifier args =>
      match eval fuel identifier env s with
      | .error er => .error er
      | .ok (res3, s1) =>
        -- callable: Identifier results are looked up (sharing the cell),
        -- anything else is used directly
        let callable? : Except RErr ExpressionRes :=
          if res3.type_ = .Identifier then
            match s1.lookupVar env res3.str with
            | none => .error (.panic "lookup of undefined variable")
            | some c =>
              match s1.getCell c with
              | none => .error (.panic "dangling cell")
              | some v => .ok v
          else .ok res3
        match callable? with
        | .error er => .error er
        | .ok callable =>
          match callable.type_ with
          | .Function =>
            match callable.method with
            | none => .error (.panic "unwrap on missing method")
            | some m =>
              -- Environment::new_with_enclosing(captured_env)
              let argsEnvId := s1.envs.length
              let s2 := s1.allocEnv (some m.captured_env)
              match bindArgs fuel args callable.get_params_method argsEnvId env s2 with
              | .error er => .error er
              | .ok s3 =>
                match methodCall fuel m argsEnvId s3 with
                | .error er => .error er
                | .ok (.Void, s4) => .ok (ExpressionRes.from_none, s4)
                | .ok (.Expr r, s4) => .ok (r, s4)
          | .Class =>
            match callable.class_ with
            | none => .error (.panic "unwrap on missing class")
            | some c =>
              -- constructor (fields) environment: Environment::new()
              let efId := s1.envs.length
              let s2 := s1.allocEnv none
              match bindArgs fuel args (c.args.map (fun a => a.str)) efId env s2 with
              | .error er => .error er
              | .ok s3 =>
                -- methods environment: new_with_enclosing(fields env)
                let emId := s3.envs.length
                let s4 := s3.allocEnv (some efId)
                let s5 := defineMethods c.methods efId emId s4
                .ok (ExpressionRes.from_instance (c.call emId), s5)
          | _ => .error (.panic "please call () is only usable on functions or classes")
    | .Get expr name =>
      match eval fuel expr env s with
      | .error er => .error er
      | .ok (res1, s1) =>
        if res1.type_ = .Identifier then
          match s1.lookupVar env res1.str with
          | none => .error (.panic "lookup of undefined variable")
          | some c =>
            match s1.getCell c with
            | none => .error (.panic "dangling cell")
            | some rcv =>
              if rcv.type_ = .Instance then
                match rcv.instance_ with
                | none => .error (.panic "unwrap on missing instance")
                | some inst =>
                  -- get_variable walks the chain of the instance env
                  match s1.lookupVar inst.env name with
                  | none => .error (.panic "unwrap on missing property")
                  | some pc =>
                    match s1.getCell pc with
                    | none => .error (.panic "dangling cell")
                    | some pv =>
                      match pv.method with
                      | none => .error (.panic "unwrap on missing method")
                      | some m =>
                        -- prepare_for_call, modelled from the spec: clone the
                        -- method and replace its captured env with a fresh
                        -- child of the instance env (section 4.5, Get)
                        .ok (ExpressionRes.from_method (m.withCaptured s1.envs.length),
                             s1.allocEnv (some inst.env))
              else .error (.panic "nonono")
        else .error (.panic "nonono")
  termination_by structural fuel1 => fuel1

/-- The argument-binding loop shared (textually duplicated in the source) by
the Function and Class branches of the Call arm in
src/expressions/visitor.rs: each argument is evaluated in the caller
environment, dereferenced via the copying identifier resolution, and defined
under the positionally corresponding parameter name; running past the end of
the parameter list is the index-out-of-bounds panic of the source. -/
def bindArgs : Nat → List Expression → List String → Nat → Nat → Store →
    Except RErr Store
  | 0, _, _, _, _, _ => .error .fuel
  | _+1, [], _, _, _, s => .ok s
  | fuel+1, a :: rest, names, argsEnv, env, s =>
    match eval fuel a env s with
    | .error er => .error er
    | .ok (r0, s1) =>
      match derefCopy s1 env r0 with
      | .error er => .error er
      | .ok r =>
        match names with
        | [] => .error (.panic "index out of bounds")
        | n :: ns => bindArgs fuel rest ns argsEnv env (s1.define_variable argsEnv n r)
  termination_by structural fuel1 => fuel1

/-- Modelled from the spec: Method::call (src/program/runtime.rs is not under
src/) executes the body block against the ProgramEnvs wrapping the provided
environment; a Return value produced by the body surfaces as the Expr
result, otherwise Void (sections 4.5 and 9). -/
def methodCall : Nat → Method → Nat → Store → Except RErr (StatementRes × Store)
  | 0, _, _, _ => .error .fuel
  | fuel+1, m, envId, s => execute fuel m.body envId s
  termination_by structural fuel1 => fuel1

/-- Modelled from the spec: the statement interpreter
(src/src/statements is not under src/), following the statement semantics
table of section 4.5; StatementRes.Expr is the propagating return value. -/
def execute : Nat → Statement → Nat → Store → Except RErr (StatementRes × Store)
  | 0, _, _, _ => .error .fuel
  | fuel+1, st, env, s =>
    match st with
    | .Stmt e =>
      match eval fuel e env s with
      | .error er => .error er
      | .ok (_, s1) => .ok (.Void, s1)
    | .PrintStatement e =>
      match eval fuel e env s with
      | .error er => .error er
      | .ok (v0, s1) =>
        match derefFull s1 env v0 with
        | .error er => .error er
        | .ok v => .ok (.Void, { s1 with output := s1.output ++ [v.print] })
    | .VarDeclaration expr identifier =>
      match identifier with
      | .VariableExpr _ name =>
        match (match expr with
               | none => .ok (ExpressionRes.from_none, s)
               | some e => eval fuel e env s :
               Except RErr (ExpressionRes × Store)) with
        | .error er => .error er
        | .ok (v0, s1) =>
          match derefFull s1 env v0 with
          | .error er => .error er
          | .ok v => .ok (.Void, s1.define_variable env name v)
      | _ => .error (.panic "variable declaration without identifier")
    | .BlockStatement stmts =>
      let child := s.envs.length
      executeList fuel stmts child (s.allocEnv (some env))
    | .IfStatement e body else_body =>
      match eval fuel e env s with
      | .error er => .error er
      | .ok (v0, s1) =>
        match derefFull s1 env v0 with
        | .error er => .error er
        | .ok v =>
          if v.type_ = .Boolean then
            if v.boolean then execute fuel body env s1
            else
              match else_body with
              | none => .ok (.Void, s1)
              | some eb => execute fuel eb env s1
          else .error (.panic "if condition must be boolean")
    | .WhileStatement e body =>
      match eval fuel e env s with
      | .error er => .error er
      | .ok (v0, s1) =>
        match derefFull s1 env v0 with
        | .error er => .error er
        | .ok v =>
          if v.type_ = .Boolean then
            if v.boolean then
              match execute fuel body env s1 with
              | .error er => .error er
              | .ok (.Expr r, s2) => .ok (.Expr r, s2)
              | .ok (.Void, s2) => execute fuel (.WhileStatement e body) env s2
            else .ok (.Void, s1)
          else .error (.panic "while condition must be boolean")
    | .ForStatement initiation condition increment body =>
      -- lowered per section 4.5 into a fresh scope enclosing the current env
      let child := s.envs.length
      let s1 := s.allocEnv (some env)
      match (match initiation with
             | none => .ok (StatementRes.Void, s1)
             | some ist => execute fuel ist child s1 :
             Except RErr (StatementRes × Store)) with
      | .error er => .error er
      | .ok (_, s2) => forLoop fuel condition increment body child s2
    | .FunStatement identifier args block =>
      match block with
      | none => .error (.panic "function without body")
      | some b =>
        let m : Method := .mk identifier.value (args.map exprToParam) b env
        .ok (.Void, s.define_variable env identifier.value (ExpressionRes.from_method m))
    | .ReturnStatement expr =>
      match expr with
      | none => .ok (.Expr ExpressionRes.from_none, s)
      | some e =>
        match eval fuel e env s with
        | .error er => .error er
        | .ok (v0, s1) =>
          match derefFull s1 env v0 with
          | .error er => .error er
          | .ok v => .ok (.Expr v, s1)
    | .ClassDeclaration identifier functions =>
      -- the spec does not name a source for the constructor parameter list;
      -- none of the verified properties depends on it, so it is left empty here
      let c : ClassObj := .mk identifier.value [] (functions.filterMap (stmtToMethod env))
      .ok (.Void, s.define_variable env identifier.value (ExpressionRes.from_class c))
  termination_by structural fuel1 => fuel1

/-- Modelled from the spec: statements of a block run in order; a return
value halts the remaining siblings and propagates (section 4.5). -/
def executeList : Nat → List Statement → Nat → Store →
    Except RErr (StatementRes × Store)
  | 0, _, _, _ => .error .fuel
  | _+1, [], _, s => .ok (.Void, s)
  | fuel+1, st :: rest, env, s =>
    match execute fuel st env s with
    | .error er => .error er
    | .ok (.Expr r, s1) => .ok (.Expr r, s1)
    | .ok (.Void, s1) => executeList fuel rest env s1
  termination_by structural fuel1 => fuel1

/-- Modelled from the spec: the loop of the lowered for statement; a missing
condition runs as while(true) (sections 4.5 and 8). -/
def forLoop : Nat → Option Statement → Option Statement → Statement → Nat →
    Store → Except RErr (StatementRes × Store)
  | 0, _, _, _, _, _ => .error .fuel
  | fuel+1, condition, increment, body, env, s =>
    match (match condition with
           | none => .ok (ExpressionRes.from_bool true, s)
           | some (.Stmt e) =>
             match eval fuel e env s with
             | .error er => .error er
             | .ok (v0, s1) => (derefFull s1 env v0).map (fun v => (v, s1))
           | some _ => .error (.panic "for condition must be an expression statement") :
           Except RErr (ExpressionRes × Store)) with
    | .error er => .error er
    | .ok (v, s1) =>
      if v.type_ = .Boolean then
        if v.boolean then
          match execute fuel body env s1 with
          | .error er => .error er
          | .ok (.Expr r, s2) => .ok (.Expr r, s2)
          | .ok (.Void, s2) =>
            match (match increment with
                   | none => .ok (StatementRes.Void, s2)
                   | some ist => execute fuel ist env s2 :
                   Except RErr (StatementRes × Store)) with
            | .error er => .error er
            | .ok (_, s3) => forLoop fuel condition increment body env s3
        else .ok (.Void, s1)
      else .error (.panic "for condition must be boolean")
  termination_by structural fuel1 => fuel1
end

/-- Parser::peek_next from src/parser.rs: true when the cursor is in range
and the current token has the given kind. -/
def peek_next (tk : TokenType) (ts : List Token) : Bool :=
  match ts with
  | [] => false
  | t :: _ => t.token_type == tk

/-- Parser::consume from src/parser.rs: reads the current token (an
out-of-range cursor is the Rust index panic), advances past it when it has
the expected kind, and otherwise only prints a diagnostic and stays put. -/
def consume (tk : TokenType) (ts : List Token) : Except RErr (List Token) :=
  match ts with
  | [] => .error (.panic "index out of bounds")
  | t :: rest => if t.token_type = tk then .ok rest else .ok ts

mutual
/-- Parser::program from src/parser.rs: repeatedly parse declarations until
the cursor leaves the token vector or reaches EOF; a None declaration result
is retried without any cursor movement (the continue of the source loop). -/
def program : Nat → List Token → Except RErr (List Statement)
  | 0, _ => .error .fuel
  | fuel+1, ts =>
    match ts with
    | [] => .ok []
    | t :: _ =>
      if t.token_type = .EOF then .ok []
      else
        match declaration fuel ts with
        | .error er => .error er
        | .ok (some st, ts1) =>
          match program fuel ts1 with
          | .error er => .error er
          | .ok l => .ok (st :: l)
        | .ok (none, ts1) => program fuel ts1
  termination_by structural fuel1 => fuel1

/-- Parser::declaration from src/parser.rs. -/
def declaration : Nat → List Token → Except RErr (Option Statement × List Token)
  | 0, _ => .error .fuel
  | fuel+1, ts =>
    match ts with
    | [] => .error (.panic "index out of bounds")
    | t :: _ =>
      match t.token_type with
      | .Var => variable_declaration fuel ts
      | .Class => class_declaration fuel ts
      | _ => statement_get fuel ts
  termination_by structural fuel1 => fuel1

/-- Parser::variable_declaration from src/parser.rs. -/
def variable_declaration : Nat → List Token →
    Except RErr (Option Statement × List Token)
  | 0, _ => .error .fuel
  | fuel+1, ts =>
    match primary fuel ts.tail with
    | .error er => .error er
    | .ok (opt, ts1) =>
      match ts1 with
      | [] => .error (.panic "index out of bounds")
      | t :: rest =>
        if t.token_type = .Equal then
          match expression fuel rest with
          | .error er => .error er
          | .ok (e, ts2) =>
            match consume .Semicolon ts2 with
            | .error er => .error er
            | .ok ts3 =>
              match opt with
              | none => .error (.panic "unwrap on None")
              | some ident => .ok (some (.VarDeclaration e ident), ts3)
        else
          match consume .Semicolon ts1 with
          | .error er => .error er
          | .ok ts2 =>
            match opt with
            | none => .error (.panic "unwrap on None")
            | some ident =>
              .ok (some (.VarDeclaration (some (.VariableExpr .Nil "")) ident), ts2)

/-- Parser::class_declaration from src/parser.rs. -/
def class_declaration : Nat → List Token →
    Except RErr (Option Statement × List Token)
  | 0, _ => .error .fuel
  | fuel+1, ts =>
    match ts.tail with
    | [] => .error (.panic "index out of bounds")
    | t :: ts1 =>
      match t.token_type with
      | .Identifier =>
        if peek_next .LeftBrace ts1 then
          match class_funs_loop fuel [] ts1.tail with
          | .error er => .error er
          | .ok (functions, ts2) =>
            if peek_next .RightBrace ts2 then
              .ok (some (.ClassDeclaration t functions), ts2.tail)
            else .error (.panic "Did not find lef brace after identifier")
        else .error (.panic "Did not find lef brace after identifier")
      | _ => .error (.panic "no identifier after fn declaration found")
  termination_by structural fuel1 => fuel1

/-- The method-collecting loop of Parser::class_declaration. -/
def class_funs_loop : Nat → List Statement → List Token →
    Except RErr (List Statement × List Token)
  | 0, _, _ => .error .fuel
  | fuel+1, acc, ts =>
    if peek_next .RightBrace ts then .ok (acc, ts)
    else
      match function fuel ts with
      | .error er => .error er
      | .ok (none, ts1) => .ok (acc, ts1)
      | .ok (some v, ts1) => class_funs_loop fuel (acc ++ [v]) ts1
  termination_by structural fuel1 => fuel1

/-- Parser::statement_get from src/parser.rs. -/
def statement_get : Nat → List Token → Except RErr (Option Statement × List Token)
  | 0, _ => .error .fuel
  | fuel+1, ts =>
    match ts with
    | [] => .error (.panic "index out of bounds")
    | t :: _ =>
      match t.token_type with
      | .Print => print_statement fuel ts
      | .If => if_statement fuel ts
      | .Fun => function fuel ts.tail
      | .While => while_block fuel ts
      | .For => for_loop fuel ts
      | .LeftBrace => block fuel ts
      | .Return => return_stmt fuel ts
      | _ => expression_statement fuel ts
  termination_by structural fuel1 => fuel1

/-- Parser::if_statement from src/parser.rs. -/
def if_statement : Nat → List Token → Except RErr (Option Statement × List Token)
  | 0, _ => .error .fuel
  | fuel+1, ts =>
    match consume .LeftParen ts.tail with
    | .error er => .error er
    | .ok ts1 =>
      match expression fuel ts1 with
      | .error er => .error er
      | .ok (none, _) => .error (.panic "unwrap on None")
      | .ok (some e, ts2) =>
        match consume .RightParen ts2 with
        | .error er => .error er
        | .ok ts3 =>
          match block fuel ts3 with
          | .error er => .error er
          | .ok (none, _) => .error (.panic "unwrap on None")
          | .ok (some body, ts4) =>
            if peek_next .Else ts4 then
              let ts5 := ts4.tail
              if peek_next .LeftBrace ts5 then
                match block fuel ts5 with
                | .error er => .error er
                | .ok (none, _) => .error (.panic "no block after brace in if statement")
                | .ok (some v, ts6) => .ok (some (.IfStatement e body (some v)), ts6)
              else .error (.panic "missing brace after else")
            else .ok (some (.IfStatement e body none), ts4)
  termination_by structural fuel1 => fuel1

/-- Parser::function from src/parser.rs (the parameter-list loop, unlike the
call-argument loop, does consume the separating commas). -/
def function : Nat → List Token → Except RErr (Option Statement × List Token)
  | 0, _ => .error .fuel
  | fuel+1, ts =>
    match ts with
    | [] => .error (.panic "index out of bounds")
    | t :: _ =>
      match t.token_type with
      | .Identifier =>
        match consume .LeftParen ts.tail with
        | .error er => .error er
        | .ok ts2 =>
          match fun_args_loop fuel [] ts2 with
          | .error er => .error er
          | .ok (args, ts3) =>
            match consume .RightParen ts3 with
            | .error er => .error er
            | .ok ts4 =>
              match block fuel ts4 with
              | .error er => .error er
              | .ok (none, _) => .error (.panic "there should be block after function")
              | .ok (some b, ts5) => .ok (some (.FunStatement t args (some b)), ts5)
      | _ => .error (.panic "no identifier after fn declaration found")
  termination_by structural fuel1 => fuel1

/-- The parameter-list loop of Parser::function. -/
def fun_args_loop : Nat → List Expression → List Token →
    Except RErr (List Expression × List Token)
  | 0, _, _ => .error .fuel
  | fuel+1, acc, ts =>
    if peek_next .RightParen ts then .ok (acc, ts)
    else
      match expression fuel ts with
      | .error er => .error er
      | .ok (none, _) => .error (.panic "unwrap on None")
      | .ok (some e, ts1) =>
        if peek_next .Comma ts1 then
          let ts2 := ts1.tail
          if peek_next .RightParen ts2 then
            .error (.panic "found rightparen after comman in fun declaration")
          else fun_args_loop fuel (acc ++ [e]) ts2
        else fun_args_loop fuel (acc ++ [e]) ts1
  termination_by structural fuel1 => fuel1

/-- Parser::while_block from src/parser.rs. -/
def while_block : Nat → List Token → Except RErr (Option Statement × List Token)
  | 0, _ => .error .fuel
  | fuel+1, ts =>
    match consume .LeftParen ts.tail with
    | .error er => .error er
    | .ok ts1 =>
      match expression fuel ts1 with
      | .error er => .error er
      | .ok (none, _) => .error (.panic "unwrap on None")
      | .ok (some e, ts2) =>
        match consume .RightParen ts2 with
        | .error er => .error er
        | .ok ts3 =>
          match declaration fuel ts3 with
          | .error er => .error er
          | .ok (none, _) => .error (.panic "unwrap on None")
          | .ok (some body, ts4) => .ok (some (.WhileStatement e body), ts4)
  termination_by structural fuel1 => fuel1

/-- Parser::for_loop from src/parser.rs (the parsed else declaration after a
for body is discarded by the source as well). -/
def for_loop : Nat → List Token → Except RErr (Option Statement × List Token)
  | 0, _ => .error .fuel
  | fuel+1, ts =>
    match consume .LeftParen ts.tail with
    | .error er => .error er
    | .ok ts1 =>
      match ts1 with
      | [] => .error (.panic "index out of bounds")
      | t :: _ =>
        match (match t.token_type with
               | .Var => declaration fuel ts1
               | .Semicolon => .ok (none, ts1)
               | _ => expression_statement fuel ts1 :
               Except RErr (Option Statement × List Token)) with
        | .error er => .error er
        | .ok (initiation, ts2) =>
          match (if !(peek_next .Semicolon ts2) then expression_statement fuel ts2
                 else (consume .Semicolon ts2).map
                   (fun x => ((none : Option Statement), x)) :
                 Except RErr (Option Statement × List Token)) with
          | .error er => .error er
          | .ok (condition, ts3) =>
            match (if !(peek_next .Semicolon ts3) then expression_statement fuel ts3
                   else (consume .Semicolon ts3).map
                     (fun x => ((none : Option Statement), x)) :
                   Except RErr (Option Statement × List Token)) with
            | .error er => .error er
            | .ok (increment, ts4) =>
              match consume .RightParen ts4 with
              | .error er => .error er
              | .ok ts5 =>
                match declaration fuel ts5 with
                | .error er => .error er
                | .ok (none, _) => .error (.panic "unwrap on None")
                | .ok (some body, ts6) =>
                  if peek_next .Else ts6 then
                    match declaration fuel ts6.tail with
                    | .error er => .error er
                    | .ok (_, ts7) =>
                      .ok (some (.ForStatement initiation condition increment body), ts7)
                  else .ok (some (.ForStatement initiation condition increment body), ts6)
  termination_by structural fuel1 => fuel1

/-- Parser::print_statement from src/parser.rs. -/
def print_statement : Nat → List Token →
    Except RErr (Option Statement × List Token)
  | 0, _ => .error .fuel
  | fuel+1, ts =>
    match expression fuel ts.tail with
    | .error er => .error er
    | .ok (e, ts1) =>
      match consume .Semicolon ts1 with
      | .error er => .error er
      | .ok ts2 =>
        match e with
        | none => .error (.panic "unwrap on None")
        | some v => .ok (some (.PrintStatement v), ts2)

/-- Parser::block from src/parser.rs. -/
def block : Nat → List Token → Except RErr (Option Statement × List Token)
  | 0, _ => .error .fuel
  | fuel+1, ts =>
    match block_loop fuel [] ts.tail with
    | .error er => .error er
    | .ok (list, ts1) =>
      match ts1 with
      | [] => .error (.panic "index out of bounds")
      | t :: rest =>
        if t.token_type = .RightBrace then .ok (some (.BlockStatement list), rest)
        else .ok (some (.BlockStatement list), ts1)
  termination_by structural fuel1 => fuel1

/-- The declaration-collecting loop of Parser::block, with the same
no-progress retry as Parser::program. -/
def block_loop : Nat → List Statement → List Token →
    Except RErr (List Statement × List Token)
  | 0, _, _ => .error .fuel
  | fuel+1, acc, ts =>
    match ts with
    | [] => .ok (acc, ts)
    | t :: _ =>
      if t.token_type = .RightBrace then .ok (acc, ts)
      else
        match declaration fuel ts with
        | .error er => .error er
        | .ok (some v, ts1) => block_loop fuel (acc ++ [v]) ts1
        | .ok (none, ts1) => block_loop fuel acc ts1
  termination_by structural fuel1 => fuel1

/-- Parser::return_stmt from src/parser.rs. -/
def return_stmt : Nat → List Token → Except RErr (Option Statement × List Token)
  | 0, _ => .error .fuel
  | fuel+1, ts =>
    match ts.tail with
    | [] => .error (.panic "index out of bounds")
    | t :: rest =>
      if t.token_type = .Semicolon then .ok (some (.ReturnStatement none), rest)
      else
        match expression fuel (t :: rest) with
        | .error er => .error er
        | .ok (none, _) => .error (.panic "unwrap on None")
        | .ok (some e, ts1) =>
          if peek_next .Semicolon ts1 then .ok (some (.ReturnStatement (some e)), ts1.tail)
          else .error (.panic "there should be a semicolon")

/-- Parser::expression_statement from src/parser.rs. -/
def expression_statement : Nat → List Token →
    Except RErr (Option Statement × List Token)
  | 0, _ => .error .fuel
  | fuel+1, ts =>
    match expression fuel ts with
    | .error er => .error er
    | .ok (none, ts1) => .ok (none, ts1)
    | .ok (some v, ts1) =>
      match consume .Semicolon ts1 with
      | .error er => .error er
      | .ok ts2 => .ok (some (.Stmt v), ts2)

/-- Parser::expression from src/parser.rs. -/
def expression : Nat → List Token → Except RErr (Option Expression × List Token)
  | 0, _ => .error .fuel
  | fuel+1, ts => assignment fuel ts
  termination_by structural fuel1 => fuel1

/-- Parser::assignment from src/parser.rs (when the cursor is past the end of
the vector the source returns None even after a parsed left-hand side). -/
def assignment : Nat → List Token → Except RErr (Option Expression × List Token)
  | 0, _ => .error .fuel
  | fuel+1, ts =>
    match logic_or fuel ts with
    | .error er => .error er
    | .ok (none, ts1) => .ok (none, ts1)
    | .ok (some lhs, ts1) =>
      match ts1 with
      | [] => .ok (none, ts1)
      | t :: rest =>
        match t.token_type with
        | .Equal =>
          match assignment fuel rest with
          | .error er => .error er
          | .ok (none, _) => .error (.panic "unwrap on None")
          | .ok (some value, ts2) => .ok (some (.Assignment lhs value), ts2)
        | .Or =>
          match logic_or fuel rest with
          | .error er => .error er
          | .ok (none, _) =>
            .error (.panic "there should be second part of bool expr after or")
          | .ok (some rhs, ts2) => .ok (some (.Logical t rhs lhs), ts2)
        | _ => .ok (some lhs, ts1)
  termination_by structural fuel1 => fuel1

/-- Parser::logic_or from src/parser.rs (a single combining step, not a
loop, exactly as in the source). -/
def logic_or : Nat → List Token → Except RErr (Option Expression × List Token)
  | 0, _ => .error .fuel
  | fuel+1, ts =>
    match logic_and fuel ts with
    | .error er => .error er
    | .ok (lhs, ts1) =>
      match lhs, ts1 with
      | some l, t :: rest =>
        if t.token_type = .Or then
          match logic_and fuel rest with
          | .error er => .error er
          | .ok (none, _) =>
            .error (.panic "invalid logic pattern, missing second expression")
          | .ok (some rhs, ts2) => .ok (some (.Logical t rhs l), ts2)
        else .ok (some l, ts1)
      | _, _ => .ok (lhs, ts1)
  termination_by structural fuel1 => fuel1

/-- Parser::logic_and from src/parser.rs. -/
def logic_and : Nat → List Token → Except RErr (Option Expression × List Token)
  | 0, _ => .error .fuel
  | fuel+1, ts =>
    match equality fuel ts with
    | .error er => .error er
    | .ok (lhs, ts1) =>
      match lhs, ts1 with
      | some l, t :: rest =>
        if t.token_type = .And then
          match equality fuel rest with
          | .error er => .error er
          | .ok (none, _) =>
            .error (.panic "invalid logic pattern, missing second expression")
          | .ok (some rhs, ts2) => .ok (some (.Logical t rhs l), ts2)
        else .ok (some l, ts1)
      | _, _ => .ok (lhs, ts1)
  termination_by structural fuel1 => fuel1

/-- Parser::equality from src/parser.rs. -/
def equality : Nat → List Token → Except RErr (Option Expression × List Token)
  | 0, _ => .error .fuel
  | fuel+1, ts =>
    match comparison fuel ts with
    | .error er => .error er
    | .ok (none, ts1) => .ok (none, ts1)
    | .ok (some lhs, ts1) => equality_loop fuel lhs ts1
  termination_by structural fuel1 => fuel1

/-- The combining loop of Parser::equality. -/
def equality_loop : Nat → Expression → List Token →
    Except RErr (Option Expression × List Token)
  | 0, _, _ => .error .fuel
  | fuel+1, lhs, ts =>
    match ts with
    | [] => .ok (some lhs, ts)
    | t :: rest =>
      match t.token_type with
      | .BangEqual | .EqualEqual =>
        match comparison fuel rest with
        | .error er => .error er
        | .ok (none, _) => .error (.panic "unwrap on None")
        | .ok (some rhs, ts2) => equality_loop fuel (.BinaryExpr t rhs lhs) ts2
      | _ => .ok (some lhs, ts)
  termination_by structural fuel1 => fuel1

/-- Parser::comparison from src/parser.rs. -/
def comparison : Nat → List Token → Except RErr (Option Expression × List Token)
  | 0, _ => .error .fuel
  | fuel+1, ts =>
    match term fuel ts with
    | .error er => .error er
    | .ok (none, ts1) => .ok (none, ts1)
    | .ok (some lhs, ts1) => comparison_loop fuel lhs ts1
  termination_by structural fuel1 => fuel1

/-- The combining loop of Parser::comparison. -/
def comparison_loop : Nat → Expression → List Token →
    Except RErr (Option Expression × List Token)
  | 0, _, _ => .error .fuel
  | fuel+1, lhs, ts =>
    match ts with
    | [] => .ok (some lhs, ts)
    | t :: rest =>
      match t.token_type with
      | .Greater | .GreaterEqual | .Less | .LessEqual =>
        match term fuel rest with
        | .error er => .error er
        | .ok (none, _) => .error (.panic "unwrap on None")
        | .ok (some rhs, ts2) => comparison_loop fuel (.BinaryExpr t rhs lhs) ts2
      | _ => .ok (some lhs, ts)
  termination_by structural fuel1 => fuel1

/-- Parser::term from src/parser.rs. -/
def term : Nat → List Token → Except RErr (Option Expression × List Token)
  | 0, _ => .error .fuel
  | fuel+1, ts =>
    match factor fuel ts with
    | .error er => .error er
    | .ok (none, ts1) => .ok (none, ts1)
    | .ok (some lhs, ts1) => term_loop fuel lhs ts1
  termination_by structural fuel1 => fuel1

/-- The combining loop of Parser::term. -/
def term_loop : Nat → Expression → List Token →
    Except RErr (Option Expression × List Token)
  | 0, _, _ => .error .fuel
  | fuel+1, lhs, ts =>
    match ts with
    | [] => .ok (some lhs, ts)
    | t :: rest =>
      match t.token_type with
      | .Minus | .Plus =>
        match factor fuel rest with
        | .error er => .error er
        | .ok (none, _) => .error (.panic "unwrap on None")
        | .ok (some rhs, ts2) => term_loop fuel (.BinaryExpr t rhs lhs) ts2
      | _ => .ok (some lhs, ts)
  termination_by structural fuel1 => fuel1

/-- Parser::factor from src/parser.rs. -/
def factor : Nat → List Token → Except RErr (Option Expression × List Token)
  | 0, _ => .error .fuel
  | fuel+1, ts =>
    match unary fuel ts with
    | .error er => .error er
    | .ok (none, ts1) => .ok (none, ts1)
    | .ok (some lhs, ts1) => factor_loop fuel lhs ts1
  termination_by structural fuel1 => fuel1

/-- The combining loop of Parser::factor. -/
def factor_loop : Nat → Expression → List Token →
    Except RErr (Option Expression × List Token)
  | 0, _, _ => .error .fuel
  | fuel+1, lhs, ts =>
    match ts with
    | [] => .ok (some lhs, ts)
    | t :: rest =>
      match t.token_type with
      | .Slash | .Star | .Percent =>
        match unary fuel rest with
        | .error er => .error er
        | .ok (none, _) => .error (.panic "unwrap on None")
        | .ok (some rhs, ts2) => factor_loop fuel (.BinaryExpr t rhs lhs) ts2
      | _ => .ok (some lhs, ts)
  termination_by structural fuel1 => fuel1

/-- Parser::unary from src/parser.rs. -/
def unary : Nat → List Token → Except RErr (Option Expression × List Token)
  | 0, _ => .error .fuel
  | fuel+1, ts =>
    match ts with
    | [] => call fuel ts
    | t :: rest =>
      match t.token_type with
      | .Bang | .Minus =>
        match unary fuel rest with
        | .error er => .error er
        | .ok (none, _) => .error (.panic "unwrap on None")
        | .ok (some rhs, ts1) => .ok (some (.UnaryExpr t rhs), ts1)
      | _ => call fuel ts
  termination_by structural fuel1 => fuel1

/-- Parser::call from src/parser.rs. -/
def call : Nat → List Token → Except RErr (Option Expression × List Token)
  | 0, _ => .error .fuel
  | fuel+1, ts =>
    match primary fuel ts with
    | .error er => .error er
    | .ok (res, ts1) => call_loop fuel res ts1
  termination_by structural fuel1 => fuel1

/-- The postfix loop of Parser::call: call argument lists and dotted
property accesses. -/
def call_loop : Nat → Option Expression → List Token →
    Except RErr (Option Expression × List Token)
  | 0, _, _ => .error .fuel
  | fuel+1, res, ts =>
    if peek_next .LeftParen ts then
      match (match expression fuel ts.tail with
             | .error er => .error er
             | .ok (none, ts2) => .ok (([] : List Expression), ts2)
             | .ok (some v, ts2) => args_loop fuel 255 [v] ts2 :
             Except RErr (List Expression × List Token)) with
      | .error er => .error er
      | .ok (args, ts3) =>
        if peek_next .RightParen ts3 then
          match res with
          | none => .error (.panic "unwrap on None")
          | some callee => call_loop fuel (some (.Call callee args)) ts3.tail
        else .error (.panic "did not find the brace after arguments")
    else if peek_next .Dot ts then
      match ts.tail with
      | t :: rest =>
        if t.token_type = .Identifier then
          match res with
          | none => .error (.panic "unwrap on None")
          | some obj => call_loop fuel (some (.Get obj t.value)) rest
        else call_loop fuel res (t :: rest)
      | [] => call_loop fuel res []
    else .ok (res, ts)
  termination_by structural fuel1 => fuel1

/-- The bounded argument loop of Parser::call (for i in 0..255). The source
peeks at the comma but never advances past it before calling
Parser::expression again. -/
def args_loop : Nat → Nat → List Expression → List Token →
    Except RErr (List Expression × List Token)
  | 0, _, _, _ => .error .fuel
  | fuel+1, iters, acc, ts =>
    match iters with
    | 0 => .ok (acc, ts)
    | iters1+1 =>
      if peek_next .Comma ts then
        match expression fuel ts with
        | .error er => .error er
        | .ok (none, _) => .error (.panic "found comma but not the argument")
        | .ok (some v, ts1) => args_loop fuel iters1 (acc ++ [v]) ts1
      else .ok (acc, ts)
  termination_by structural fuel1 => fuel1

/-- Parser::primary from src/parser.rs (after a grouped expression the source
advances unconditionally, printing a diagnostic when the current token is not
the closing parenthesis). -/
def primary : Nat → List Token → Except RErr (Option Expression × List Token)
  | 0, _ => .error .fuel
  | fuel+1, ts =>
    match ts with
    | [] => .error (.panic "index out of bounds")
    | t :: rest =>
      match t.token_type with
      | .False | .True | .Nil => .ok (some (.LiteralExpr t.token_type t.value), rest)
      | .String | .Number => .ok (some (.LiteralExpr t.token_type t.value), rest)
      | .LeftParen =>
        match expression fuel rest with
        | .error er => .error er
        | .ok (none, _) => .error (.panic "unwrap on None")
        | .ok (some e, ts1) =>
          match ts1 with
          | [] => .error (.panic "index out of bounds")
          | _ :: ts2 => .ok (some (.GroupingExpr e), ts2)
      | .Identifier => .ok (some (.VariableExpr t.token_type t.value), rest)
      | _ => .ok (none, ts)
  termination_by structural fuel1 => fuel1
end

/-- The initial heap: one empty root environment at address 0, as the
evaluator sets up before running a program. -/
def emptyStore : Store := ⟨[⟨[], none⟩], [], []⟩

/-- The whole pipeline: parse the token vector and execute the resulting
statements against the root environment, returning the stdout lines. -/
def interpret (fuel : Nat) (ts : List Token) : Except RErr (List String) :=
  match program fuel ts with
  | .error er => .error er
  | .ok stmts =>
    match executeList fuel stmts 0 emptyStore with
    | .error er => .error er
    | .ok (_, s) => .ok s.output

/-- A token vector holding one stray semicolon before the terminating EOF:
the smallest input on which no parser production makes progress. -/
def semiToks : List Token := [⟨.Semicolon, ";"⟩, ⟨.EOF, ""⟩]

/-- The token vector of a program of n statements print 1; followed by EOF. -/
def printProgramToks : Nat → List Token
  | 0 => [⟨.EOF, ""⟩]
  | n+1 => ⟨.Print, "print"⟩ :: ⟨.Number, "1"⟩ :: ⟨.Semicolon, ";"⟩ :: printProgramToks n

/-! ## Theorems about the embedded program -/

/-- Claim C1. The specified assignment semantics — evaluate the right-hand
side, dereference it via environment lookup when it is an Identifier, then
either remove the target binding (Nil) or assign_existing to the target —
does not hold of the source: in the program var a = 1; var b = 2; a = b; the
evaluator looks up the right-hand variable b and replaces the cell of b
itself with a copy of the still-unresolved Identifier value, leaves a bound
to 1, and yields that Identifier copy as the result of the assignment
expression. -/
theorem assignment_identifier_rhs_bug :
    executeList 20
      [.VarDeclaration (some (.LiteralExpr .Number "1")) (.VariableExpr .Identifier "a"),
       .VarDeclaration (some (.LiteralExpr .Number "2")) (.VariableExpr .Identifier "b"),
       .Stmt (.Assignment (.VariableExpr .Identifier "a") (.VariableExpr .Identifier "b"))]
      0 emptyStore
      = .ok (.Void,
          ⟨[⟨[("b", 1), ("a", 0)], none⟩],
           [ExpressionRes.from_number 1, ExpressionRes.from_variable "b"], []⟩)
    ∧ eval 10 (.Assignment (.VariableExpr .Identifier "a") (.VariableExpr .Identifier "b")) 0
        ⟨[⟨[("b", 1), ("a", 0)], none⟩],
         [ExpressionRes.from_number 1, ExpressionRes.from_number 2], []⟩
      = .ok (ExpressionRes.from_variable "b",
          ⟨[⟨[("b", 1), ("a", 0)], none⟩],
           [ExpressionRes.from_number 1, ExpressionRes.from_variable "b"], []⟩) :=
  ⟨rfl, rfl⟩

/-- Claim C2, counterexample. ExpressionRes::copy does not share the Function
payload of its argument by reference: for a concrete Function value the copy
holds no method payload at all, while the original does. -/
theorem copy_does_not_share_function_payload :
    (ExpressionRes.copy
        (ExpressionRes.from_method (.mk "f" [] (.BlockStatement []) 0))).method = none
    ∧ (ExpressionRes.from_method (.mk "f" [] (.BlockStatement []) 0)).method
        = some (.mk "f" [] (.BlockStatement []) 0) :=
  ⟨rfl, rfl⟩

/-- Claim C2, amended. ExpressionRes::copy produces an independent snapshot
of the primitive payloads (tag, string, number, boolean) and drops the
Function, Class and Instance payloads entirely, setting all three to None
rather than sharing them. -/
theorem copy_snapshots_primitives_and_drops_payloads (v : ExpressionRes) :
    (ExpressionRes.copy v).type_ = v.type_
    ∧ (ExpressionRes.copy v).str = v.str
    ∧ (ExpressionRes.copy v).number = v.number
    ∧ (ExpressionRes.copy v).boolean = v.boolean
    ∧ (ExpressionRes.copy v).method = none
    ∧ (ExpressionRes.copy v).class_ = none
    ∧ (ExpressionRes.copy v).instance_ = none := by
  cases v
  exact ⟨rfl, rfl, rfl, rfl, rfl, rfl, rfl⟩

/-- Claim C8. The parser does not accept argument lists of up to 255
arguments: the argument loop of Parser::call peeks at the separating comma
but never consumes it, so the nested Parser::expression starts at the comma,
returns None, and the parse of any call with two or more arguments panics
with "found comma but not the argument"; a one-argument call still parses. -/
theorem call_two_arguments_panics :
    call 40 [⟨.Identifier, "f"⟩, ⟨.LeftParen, "("⟩, ⟨.Number, "1"⟩, ⟨.Comma, ","⟩,
             ⟨.Number, "2"⟩, ⟨.RightParen, ")"⟩, ⟨.EOF, ""⟩]
      = .error (.panic "found comma but not the argument")
    ∧ call 40 [⟨.Identifier, "f"⟩, ⟨.LeftParen, "("⟩, ⟨.Number, "1"⟩,
               ⟨.RightParen, ")"⟩, ⟨.EOF, ""⟩]
      = .ok (some (.Call (.VariableExpr .Identifier "f") [.LiteralExpr .Number "1"]),
             [⟨.EOF, ""⟩]) :=
  ⟨rfl, rfl⟩

/-- Claim C5, counterexample. When the object of a Get expression evaluates
directly to an Instance (here, the instance freshly constructed by calling
the class Box), the evaluator does not look up the property in the instance
environment as the claim states: the Get arm only handles Identifier-tagged
results and panics with "nonono" on the Instance it is given, even though the
property value is present and bound to a Function. -/
theorem get_on_direct_instance_result_errors :
    eval 20 (.Get (.Call (.VariableExpr .Identifier "Box") []) "value") 0
      ⟨[⟨[("Box", 0)], none⟩],
       [ExpressionRes.from_class (.mk "Box" []
          [.mk "value" [] (.BlockStatement [.ReturnStatement (some (.VariableExpr .Identifier "x"))]) 0])],
       []⟩
      = .error (.panic "nonono") :=
  rfl

/-- Claim C6. For Number operands with a positive right-hand side, the
Percent arm of the binary evaluator produces the Euclidean remainder of the
left operand by the right operand, and that remainder is non-negative. -/
theorem binary_percent_euclidean
    (fuel : Nat) (rhs lhs : Expression) (tk : Token) (env : Nat)
    (s0 s1 s2 : Store) (rhs0 lhs0 rhs_res lhs_res : ExpressionRes)
    (h0 : tk.token_type = .Percent)
    (h1 : eval fuel rhs env s0 = .ok (rhs0, s1))
    (h2 : eval fuel lhs env s1 = .ok (lhs0, s2))
    (h3 : derefCopy s2 env rhs0 = .ok rhs_res)
    (h4 : derefCopy s2 env lhs0 = .ok lhs_res)
    (h5 : lhs_res.type_ = .Number)
    (h6 : rhs_res.type_ = .Number)
    (h7 : 0 < rhs_res.number) :
    eval (fuel+1) (.BinaryExpr tk rhs lhs) env s0
      = .ok (ExpressionRes.from_number (Int.emod lhs_res.number rhs_res.number), s2)
    ∧ 0 ≤ Int.emod lhs_res.number rhs_res.number := by
  constructor
  · simp only [eval, h1, h2, h3, h4, h0]
    rw [if_pos ⟨h5, by simp [ExpressionRes.eq_type, h5, h6]⟩]
    rw [if_neg (by omega)]
  · exact Int.emod_nonneg lhs_res.number (by omega)

/-- Claim C6, witness: the expression (-3) % 2 evaluates to the Number 1. -/
theorem binary_percent_euclidean_witness :
    eval 6 (.BinaryExpr ⟨.Percent, "%"⟩ (.LiteralExpr .Number "2")
             (.UnaryExpr ⟨.Minus, "-"⟩ (.LiteralExpr .Number "3"))) 0 emptyStore
      = .ok (ExpressionRes.from_number 1, emptyStore)
    ∧ (0 : Int) ≤ 1 := by
  have h := binary_percent_euclidean 5 (.LiteralExpr .Number "2")
    (.UnaryExpr ⟨.Minus, "-"⟩ (.LiteralExpr .Number "3")) ⟨.Percent, "%"⟩ 0
    emptyStore emptyStore emptyStore
    (ExpressionRes.from_number 2) (ExpressionRes.from_number (-3))
    (ExpressionRes.from_number 2) (ExpressionRes.from_number (-3))
    rfl rfl rfl rfl rfl rfl rfl (by decide)
  exact ⟨h.1, h.2⟩

/-- Claim C10. When the right-hand side of an assignment evaluates to a
Function-tagged value, the Assignment arm performs no environment operation
of its own — the resulting store is exactly the store left by evaluating the
target and the right-hand side — and the result of the assignment expression
is that very Function value, payload included, not a copy. -/
theorem assignment_function_value_identity
    (fuel : Nat) (tgt rhs : Expression) (env : Nat) (s0 s1 s2 : Store)
    (a v : ExpressionRes)
    (h1 : eval fuel tgt env s0 = .ok (a, s1))
    (h2 : eval fuel rhs env s1 = .ok (v, s2))
    (h3 : v.type_ = .Function) :
    eval (fuel+1) (.Assignment tgt rhs) env s0 = .ok (v, s2) := by
  simp only [eval, h1, h2, h3]

/-- Claim C10, witness: assigning the Function value produced by the call
f() (a function whose body returns f itself) to x changes no existing
binding — the final store only carries the environments allocated by the
call — and yields that Function value with its method payload intact. -/
theorem assignment_function_value_identity_witness :
    eval 11 (.Assignment (.VariableExpr .Identifier "x")
              (.Call (.VariableExpr .Identifier "f") [])) 0
      ⟨[⟨[("f", 0)], none⟩],
       [ExpressionRes.from_method (.mk "f" []
          (.BlockStatement [.ReturnStatement (some (.VariableExpr .Identifier "f"))]) 0)], []⟩
      = .ok (ExpressionRes.from_method (.mk "f" []
              (.BlockStatement [.ReturnStatement (some (.VariableExpr .Identifier "f"))]) 0),
             ⟨[⟨[("f", 0)], none⟩, ⟨[], some 0⟩, ⟨[], some 1⟩],
              [ExpressionRes.from_method (.mk "f" []
                 (.BlockStatement [.ReturnStatement (some (.VariableExpr .Identifier "f"))]) 0)],
              []⟩) :=
  assignment_function_value_identity 10 _ _ 0 _ _ _ _ _ rfl rfl rfl

/-- Claim C5, amended. The Get arm succeeds exactly through the
Identifier path: when the object expression evaluates to an Identifier bound
to an Instance, the property is looked up through the chain of the instance
environment and, the bound value holding a method, a rebound clone is
returned whose captured environment is a fresh child of the instance
environment (the freshly allocated address s1.envs.length); when that
property lookup finds nothing the Get is an error (the unwrap panic on the
missing property); when the Identifier is bound to a non-Instance value the
Get panics nonono; and when the object result is not an Identifier at all —
even when it is directly an Instance — the Get panics nonono as well. -/
theorem get_identifier_instance_rebinds_method
    (fuel : Nat) (obj : Expression) (name : String) (env : Nat)
    (s0 s1 : Store) (r1 : ExpressionRes)
    (h1 : eval fuel obj env s0 = .ok (r1, s1)) :
    (∀ (cid : Nat) (iv : ExpressionRes) (inst : InstanceObj) (pc : Nat)
       (pv : ExpressionRes) (m : Method),
       r1.type_ = .Identifier →
       s1.lookupVar env r1.str = some cid →
       s1.getCell cid = some iv →
       iv.type_ = .Instance →
       iv.instance_ = some inst →
       s1.lookupVar inst.env name = some pc →
       s1.getCell pc = some pv →
       pv.method = some m →
       eval (fuel+1) (.Get obj name) env s0
         = .ok (ExpressionRes.from_method (m.withCaptured s1.envs.length),
                s1.allocEnv (some inst.env)))
    ∧ (∀ (cid : Nat) (iv : ExpressionRes) (inst : InstanceObj),
       r1.type_ = .Identifier →
       s1.lookupVar env r1.str = some cid →
       s1.getCell cid = some iv →
       iv.type_ = .Instance →
       iv.instance_ = some inst →
       s1.lookupVar inst.env name = none →
       eval (fuel+1) (.Get obj name) env s0
         = .error (.panic "unwrap on missing property"))
    ∧ (∀ (cid : Nat) (iv : ExpressionRes),
       r1.type_ = .Identifier →
       s1.lookupVar env r1.str = some cid →
       s1.getCell cid = some iv →
       iv.type_ ≠ .Instance →
       eval (fuel+1) (.Get obj name) env s0 = .error (.panic "nonono"))
    ∧ (r1.type_ ≠ .Identifier →
       eval (fuel+1) (.Get obj name) env s0 = .error (.panic "nonono")) := by
  refine ⟨?_, ?_, ?_, ?_⟩
  · intro cid iv inst pc pv m h2 h3 h4 h5 h6 h7 h8 h9
    simp [eval, h1, h2, h3, h4, h5, h6, h7, h8, h9]
  · intro cid iv inst h2 h3 h4 h5 h6 h7
    simp [eval, h1, h2, h3, h4, h5, h6, h7]
  · intro cid iv h2 h3 h4 h5
    simp [eval, h1, h2, h3, h4, h5]
  · intro h2
    simp [eval, h1, h2]

/-- Claim C5, witness, in a store where b is bound to an instance whose
environment binds value to a method and n is bound to a Number: reading
property value of b yields the rebound clone capturing the fresh child
environment 3 of the instance environment 2; reading the absent property
missing of b is the unwrap error; reading a property of n (an Identifier
bound to a non-Instance) panics nonono; and reading a property of the
literal 7 (a non-Identifier result) panics nonono. -/
theorem get_identifier_instance_rebinds_method_witness :
    eval 6 (.Get (.VariableExpr .Identifier "b") "value") 0
      ⟨[⟨[("b", 0), ("n", 1)], none⟩, ⟨[("x", 1)], none⟩, ⟨[("value", 2)], some 1⟩],
       [ExpressionRes.from_instance
          (.mk (.mk "Box" [ExpressionRes.from_variable "x"] [.mk "value" [] (.BlockStatement []) 1]) 2),
        ExpressionRes.from_number 42,
        ExpressionRes.from_method (.mk "value" [] (.BlockStatement []) 1)], []⟩
      = .ok (ExpressionRes.from_method (.mk "value" [] (.BlockStatement []) 3),
             ⟨[⟨[("b", 0), ("n", 1)], none⟩, ⟨[("x", 1)], none⟩, ⟨[("value", 2)], some 1⟩,
               ⟨[], some 2⟩],
              [ExpressionRes.from_instance
                 (.mk (.mk "Box" [ExpressionRes.from_variable "x"] [.mk "value" [] (.BlockStatement []) 1]) 2),
               ExpressionRes.from_number 42,
               ExpressionRes.from_method (.mk "value" [] (.BlockStatement []) 1)], []⟩)
    ∧ eval 6 (.Get (.VariableExpr .Identifier "b") "missing") 0
        ⟨[⟨[("b", 0), ("n", 1)], none⟩, ⟨[("x", 1)], none⟩, ⟨[("value", 2)], some 1⟩],
         [ExpressionRes.from_instance
            (.mk (.mk "Box" [ExpressionRes.from_variable "x"] [.mk "value" [] (.BlockStatement []) 1]) 2),
          ExpressionRes.from_number 42,
          ExpressionRes.from_method (.mk "value" [] (.BlockStatement []) 1)], []⟩
        = .error (.panic "unwrap on missing property")
    ∧ eval 6 (.Get (.VariableExpr .Identifier "n") "value") 0
        ⟨[⟨[("b", 0), ("n", 1)], none⟩, ⟨[("x", 1)], none⟩, ⟨[("value", 2)], some 1⟩],
         [ExpressionRes.from_instance
            (.mk (.mk "Box" [ExpressionRes.from_variable "x"] [.mk "value" [] (.BlockStatement []) 1]) 2),
          ExpressionRes.from_number 42,
          ExpressionRes.from_method (.mk "value" [] (.BlockStatement []) 1)], []⟩
        = .error (.panic "nonono")
    ∧ eval 6 (.Get (.LiteralExpr .Number "7") "value") 0
        ⟨[⟨[("b", 0), ("n", 1)], none⟩, ⟨[("x", 1)], none⟩, ⟨[("value", 2)], some 1⟩],
         [ExpressionRes.from_instance
            (.mk (.mk "Box" [ExpressionRes.from_variable "x"] [.mk "value" [] (.BlockStatement []) 1]) 2),
          ExpressionRes.from_number 42,
          ExpressionRes.from_method (.mk "value" [] (.BlockStatement []) 1)], []⟩
        = .error (.panic "nonono") :=
  ⟨(get_identifier_instance_rebinds_method 5 (.VariableExpr .Identifier "b") "value" 0
      ⟨[⟨[("b", 0), ("n", 1)], none⟩, ⟨[("x", 1)], none⟩, ⟨[("value", 2)], some 1⟩],
       [ExpressionRes.from_instance
          (.mk (.mk "Box" [ExpressionRes.from_variable "x"] [.mk "value" [] (.BlockStatement []) 1]) 2),
        ExpressionRes.from_number 42,
        ExpressionRes.from_method (.mk "value" [] (.BlockStatement []) 1)], []⟩
      ⟨[⟨[("b", 0), ("n", 1)], none⟩, ⟨[("x", 1)], none⟩, ⟨[("value", 2)], some 1⟩],
       [ExpressionRes.from_instance
          (.mk (.mk "Box" [ExpressionRes.from_variable "x"] [.mk "value" [] (.BlockStatement []) 1]) 2),
        ExpressionRes.from_number 42,
        ExpressionRes.from_method (.mk "value" [] (.BlockStatement []) 1)], []⟩
      (ExpressionRes.from_variable "b") rfl).1
     0
     (ExpressionRes.from_instance
        (.mk (.mk "Box" [ExpressionRes.from_variable "x"] [.mk "value" [] (.BlockStatement []) 1]) 2))
     (.mk (.mk "Box" [ExpressionRes.from_variable "x"] [.mk "value" [] (.BlockStatement []) 1]) 2)
     2
     (ExpressionRes.from_method (.mk "value" [] (.BlockStatement []) 1))
     (.mk "value" [] (.BlockStatement []) 1)
     rfl rfl rfl rfl rfl rfl rfl rfl,
   (get_identifier_instance_rebinds_method 5 (.VariableExpr .Identifier "b") "missing" 0
      ⟨[⟨[("b", 0), ("n", 1)], none⟩, ⟨[("x", 1)], none⟩, ⟨[("value", 2)], some 1⟩],
       [ExpressionRes.from_instance
          (.mk (.mk "Box" [ExpressionRes.from_variable "x"] [.mk "value" [] (.BlockStatement []) 1]) 2),
        ExpressionRes.from_number 42,
        ExpressionRes.from_method (.mk "value" [] (.BlockStatement []) 1)], []⟩
      ⟨[⟨[("b", 0), ("n", 1)], none⟩, ⟨[("x", 1)], none⟩, ⟨[("value", 2)], some 1⟩],
       [ExpressionRes.from_instance
          (.mk (.mk "Box" [ExpressionRes.from_variable "x"] [.mk "value" [] (.BlockStatement []) 1]) 2),
        ExpressionRes.from_number 42,
        ExpressionRes.from_method (.mk "value" [] (.BlockStatement []) 1)], []⟩
      (ExpressionRes.from_variable "b") rfl).2.1
     0
     (ExpressionRes.from_instance
        (.mk (.mk "Box" [ExpressionRes.from_variable "x"] [.mk "value" [] (.BlockStatement []) 1]) 2))
     (.mk (.mk "Box" [ExpressionRes.from_variable "x"] [.mk "value" [] (.BlockStatement []) 1]) 2)
     rfl rfl rfl rfl rfl rfl,
   (get_identifier_instance_rebinds_method 5 (.VariableExpr .Identifier "n") "value" 0
      ⟨[⟨[("b", 0), ("n", 1)], none⟩, ⟨[("x", 1)], none⟩, ⟨[("value", 2)], some 1⟩],
       [ExpressionRes.from_instance
          (.mk (.mk "Box" [ExpressionRes.from_variable "x"] [.mk "value" [] (.BlockStatement []) 1]) 2),
        ExpressionRes.from_number 42,
        ExpressionRes.from_method (.mk "value" [] (.BlockStatement []) 1)], []⟩
      ⟨[⟨[("b", 0), ("n", 1)], none⟩, ⟨[("x", 1)], none⟩, ⟨[("value", 2)], some 1⟩],
       [ExpressionRes.from_instance
          (.mk (.mk "Box" [ExpressionRes.from_variable "x"] [.mk "value" [] (.BlockStatement []) 1]) 2),
        ExpressionRes.from_number 42,
        ExpressionRes.from_method (.mk "value" [] (.BlockStatement []) 1)], []⟩
      (ExpressionRes.from_variable "n") rfl).2.2.1
     1 (ExpressionRes.from_number 42) rfl rfl rfl (by decide),
   (get_identifier_instance_rebinds_method 5 (.LiteralExpr .Number "7") "value" 0
      ⟨[⟨[("b", 0), ("n", 1)], none⟩, ⟨[("x", 1)], none⟩, ⟨[("value", 2)], some 1⟩],
       [ExpressionRes.from_instance
          (.mk (.mk "Box" [ExpressionRes.from_variable "x"] [.mk "value" [] (.BlockStatement []) 1]) 2),
        ExpressionRes.from_number 42,
        ExpressionRes.from_method (.mk "value" [] (.BlockStatement []) 1)], []⟩
      ⟨[⟨[("b", 0), ("n", 1)], none⟩, ⟨[("x", 1)], none⟩, ⟨[("value", 2)], some 1⟩],
       [ExpressionRes.from_instance
          (.mk (.mk "Box" [ExpressionRes.from_variable "x"] [.mk "value" [] (.BlockStatement []) 1]) 2),
        ExpressionRes.from_number 42,
        ExpressionRes.from_method (.mk "value" [] (.BlockStatement []) 1)], []⟩
      (ExpressionRes.from_number 7) rfl).2.2.2
     (by decide)⟩

/-- Claim C7. The Logical arm evaluates both operands (right-hand side first,
threading the store through both evaluations), resolves identifiers by the
copying dereference, requires both resolved operands to be Boolean, and
returns the Boolean conjunction for an And token and the disjunction for an
Or token; in particular the two-statement program print true and false;
print true or false; writes the lines false and true to stdout. -/
theorem logical_and_or :
    (∀ (fuel : Nat) (rhs lhs : Expression) (env : Nat) (s0 s1 s2 : Store)
       (rhs0 lhs0 rhs_res lhs_res : ExpressionRes) (v : String),
       eval fuel rhs env s0 = .ok (rhs0, s1) →
       eval fuel lhs env s1 = .ok (lhs0, s2) →
       derefCopy s2 env rhs0 = .ok rhs_res →
       derefCopy s2 env lhs0 = .ok lhs_res →
       lhs_res.type_ = .Boolean → rhs_res.type_ = .Boolean →
       eval (fuel+1) (.Logical ⟨.And, v⟩ rhs lhs) env s0
           = .ok (ExpressionRes.from_bool (lhs_res.boolean && rhs_res.boolean), s2)
         ∧ eval (fuel+1) (.Logical ⟨.Or, v⟩ rhs lhs) env s0
           = .ok (ExpressionRes.from_bool (lhs_res.boolean || rhs_res.boolean), s2))
    ∧ interpret 60
        [⟨.Print, "print"⟩, ⟨.True, "true"⟩, ⟨.And, "and"⟩, ⟨.False, "false"⟩, ⟨.Semicolon, ";"⟩,
         ⟨.Print, "print"⟩, ⟨.True, "true"⟩, ⟨.Or, "or"⟩, ⟨.False, "false"⟩, ⟨.Semicolon, ";"⟩,
         ⟨.EOF, ""⟩]
        = .ok ["false", "true"] := by
  constructor
  · intro fuel rhs lhs env s0 s1 s2 rhs0 lhs0 rhs_res lhs_res v h1 h2 h3 h4 h5 h6
    constructor
    · simp [eval, h1, h2, h3, h4, ExpressionRes.eq_type, h5, h6]
    · simp [eval, h1, h2, h3, h4, ExpressionRes.eq_type, h5, h6]
  · rfl

/-- Claim C7, witness: the And and Or combinations on literal Booleans. -/
theorem logical_and_or_witness :
    eval 2 (.Logical ⟨.And, "and"⟩ (.LiteralExpr .False "false") (.LiteralExpr .True "true")) 0 emptyStore
      = .ok (ExpressionRes.from_bool false, emptyStore)
    ∧ eval 2 (.Logical ⟨.Or, "or"⟩ (.LiteralExpr .False "false") (.LiteralExpr .True "true")) 0 emptyStore
      = .ok (ExpressionRes.from_bool true, emptyStore) := by
  have h := logical_and_or.1 1 (.LiteralExpr .False "false") (.LiteralExpr .True "true") 0
    emptyStore emptyStore emptyStore
    (ExpressionRes.from_bool false) (ExpressionRes.from_bool true)
    (ExpressionRes.from_bool false) (ExpressionRes.from_bool true)
    "and" rfl rfl rfl rfl rfl rfl
  have h2 := logical_and_or.1 1 (.LiteralExpr .False "false") (.LiteralExpr .True "true") 0
    emptyStore emptyStore emptyStore
    (ExpressionRes.from_bool false) (ExpressionRes.from_bool true)
    (ExpressionRes.from_bool false) (ExpressionRes.from_bool true)
    "or" rfl rfl rfl rfl rfl rfl
  exact ⟨h.1, h2.2⟩

/-- Claim C4. A call whose callee resolves (through the environment when the
callee result is an Identifier) to a Function value allocates a new
environment whose parent is the captured environment of the method, binds the
evaluated and dereferenced arguments positionally in it via the argument
loop, executes the body there through Method::call, and yields the
propagated return value when the body produced one and Nil otherwise. -/
theorem call_function_semantics
    (fuel : Nat) (callee : Expression) (args : List Expression) (env : Nat)
    (s0 s1 s2 s3 : Store) (r3 fv : ExpressionRes) (cid : Nat) (m : Method)
    (sr : StatementRes)
    (h1 : eval fuel callee env s0 = .ok (r3, s1))
    (h2 : r3.type_ = .Identifier)
    (h3 : s1.lookupVar env r3.str = some cid)
    (h4 : s1.getCell cid = some fv)
    (h5 : fv.type_ = .Function)
    (h6 : fv.method = some m)
    (h7 : bindArgs fuel args fv.get_params_method s1.envs.length env
            (s1.allocEnv (some m.captured_env)) = .ok s2)
    (h8 : methodCall fuel m s1.envs.length s2 = .ok (sr, s3)) :
    eval (fuel+1) (.Call callee args) env s0
      = .ok ((match sr with
              | .Void => ExpressionRes.from_none
              | .Expr r => r), s3) := by
  simp [eval, h1, h2, h3, h4, h5, h6, h7, h8]
  cases sr <;> rfl

/-- Claim C4, witness: calling f bound to a one-parameter function whose body
returns its parameter, with the literal argument 41, binds x to 41 in a fresh
environment enclosing the captured environment 0 and returns 41. -/
theorem call_function_semantics_witness :
    eval 11 (.Call (.VariableExpr .Identifier "f") [.LiteralExpr .Number "41"]) 0
      ⟨[⟨[("f", 0)], none⟩],
       [ExpressionRes.from_method (.mk "f" [ExpressionRes.from_variable "x"]
          (.BlockStatement [.ReturnStatement (some (.VariableExpr .Identifier "x"))]) 0)], []⟩
      = .ok (ExpressionRes.from_number 41,
             ⟨[⟨[("f", 0)], none⟩, ⟨[("x", 1)], some 0⟩, ⟨[], some 1⟩],
              [ExpressionRes.from_method (.mk "f" [ExpressionRes.from_variable "x"]
                 (.BlockStatement [.ReturnStatement (some (.VariableExpr .Identifier "x"))]) 0),
               ExpressionRes.from_number 41], []⟩) :=
  call_function_semantics 10 (.VariableExpr .Identifier "f") [.LiteralExpr .Number "41"] 0
    ⟨[⟨[("f", 0)], none⟩],
     [ExpressionRes.from_method (.mk "f" [ExpressionRes.from_variable "x"]
        (.BlockStatement [.ReturnStatement (some (.VariableExpr .Identifier "x"))]) 0)], []⟩
    ⟨[⟨[("f", 0)], none⟩],
     [ExpressionRes.from_method (.mk "f" [ExpressionRes.from_variable "x"]
        (.BlockStatement [.ReturnStatement (some (.VariableExpr .Identifier "x"))]) 0)], []⟩
    ⟨[⟨[("f", 0)], none⟩, ⟨[("x", 1)], some 0⟩],
     [ExpressionRes.from_method (.mk "f" [ExpressionRes.from_variable "x"]
        (.BlockStatement [.ReturnStatement (some (.VariableExpr .Identifier "x"))]) 0),
      ExpressionRes.from_number 41], []⟩
    ⟨[⟨[("f", 0)], none⟩, ⟨[("x", 1)], some 0⟩, ⟨[], some 1⟩],
     [ExpressionRes.from_method (.mk "f" [ExpressionRes.from_variable "x"]
        (.BlockStatement [.ReturnStatement (some (.VariableExpr .Identifier "x"))]) 0),
      ExpressionRes.from_number 41], []⟩
    (ExpressionRes.from_variable "f")
    (ExpressionRes.from_method (.mk "f" [ExpressionRes.from_variable "x"]
       (.BlockStatement [.ReturnStatement (some (.VariableExpr .Identifier "x"))]) 0))
    0
    (.mk "f" [ExpressionRes.from_variable "x"]
       (.BlockStatement [.ReturnStatement (some (.VariableExpr .Identifier "x"))]) 0)
    (.Expr (ExpressionRes.from_number 41))
    rfl rfl rfl rfl rfl rfl rfl rfl

/-- Claim C3. A call whose callee resolves to a Class value allocates the
fields environment (a fresh parentless scope), binds the evaluated
constructor arguments to the declared constructor parameter names there via
the argument loop, allocates the methods environment as a child of the
fields environment, defines in it a clone of every method template with its
captured environment overwritten to the fields environment, and returns an
Instance value built by Class::call whose environment is the methods
environment. -/
theorem call_class_builds_instance
    (fuel : Nat) (callee : Expression) (args : List Expression) (env : Nat)
    (s0 s1 s3 : Store) (r3 cv : ExpressionRes) (cid : Nat) (c : ClassObj)
    (h1 : eval fuel callee env s0 = .ok (r3, s1))
    (h2 : r3.type_ = .Identifier)
    (h3 : s1.lookupVar env r3.str = some cid)
    (h4 : s1.getCell cid = some cv)
    (h5 : cv.type_ = .Class)
    (h6 : cv.class_ = some c)
    (h7 : bindArgs fuel args (c.args.map (fun a => a.str)) s1.envs.length env
            (s1.allocEnv none) = .ok s3) :
    eval (fuel+1) (.Call callee args) env s0
      = .ok (ExpressionRes.from_instance (c.call s3.envs.length),
             defineMethods c.methods s1.envs.length s3.envs.length
               (s3.allocEnv (some s1.envs.length))) := by
  simp [eval, h1, h2, h3, h4, h5, h6, h7]

/-- Claim C3, witness: calling the class Box with constructor parameter x and
one method value on the literal argument 42 builds the fields environment 1
binding x to 42, the methods environment 2 enclosing it that binds value to
the rebound method template capturing environment 1, and returns an Instance
whose environment is 2. -/
theorem call_class_builds_instance_witness :
    eval 6 (.Call (.VariableExpr .Identifier "Box") [.LiteralExpr .Number "42"]) 0
      ⟨[⟨[("Box", 0)], none⟩],
       [ExpressionRes.from_class (.mk "Box" [ExpressionRes.from_variable "x"]
          [.mk "value" [] (.BlockStatement []) 0])], []⟩
      = .ok (ExpressionRes.from_instance
               (.mk (.mk "Box" [ExpressionRes.from_variable "x"]
                  [.mk "value" [] (.BlockStatement []) 0]) 2),
             ⟨[⟨[("Box", 0)], none⟩, ⟨[("x", 1)], none⟩, ⟨[("value", 2)], some 1⟩],
              [ExpressionRes.from_class (.mk "Box" [ExpressionRes.from_variable "x"]
                 [.mk "value" [] (.BlockStatement []) 0]),
               ExpressionRes.from_number 42,
               ExpressionRes.from_method (.mk "value" [] (.BlockStatement []) 1)], []⟩) :=
  call_class_builds_instance 5 (.VariableExpr .Identifier "Box") [.LiteralExpr .Number "42"] 0
    ⟨[⟨[("Box", 0)], none⟩],
     [ExpressionRes.from_class (.mk "Box" [ExpressionRes.from_variable "x"]
        [.mk "value" [] (.BlockStatement []) 0])], []⟩
    ⟨[⟨[("Box", 0)], none⟩],
     [ExpressionRes.from_class (.mk "Box" [ExpressionRes.from_variable "x"]
        [.mk "value" [] (.BlockStatement []) 0])], []⟩
    ⟨[⟨[("Box", 0)], none⟩, ⟨[("x", 1)], none⟩],
     [ExpressionRes.from_class (.mk "Box" [ExpressionRes.from_variable "x"]
        [.mk "value" [] (.BlockStatement []) 0]),
      ExpressionRes.from_number 42], []⟩
    (ExpressionRes.from_variable "Box")
    (ExpressionRes.from_class (.mk "Box" [ExpressionRes.from_variable "x"]
       [.mk "value" [] (.BlockStatement []) 0]))
    0
    (.mk "Box" [ExpressionRes.from_variable "x"] [.mk "value" [] (.BlockStatement []) 0])
    rfl rfl rfl rfl rfl rfl rfl

/-- On the stray-semicolon vector, Parser::declaration either runs out of
fuel or completes with None while leaving the cursor exactly where it was:
it never consumes a token. -/
theorem declaration_semi_no_progress (g : Nat) :
    declaration g semiToks = .error .fuel
    ∨ declaration g semiToks = .ok (none, semiToks) :=
  match g with
  | 0 | 1 | 2 | 3 | 4 | 5 | 6 | 7 | 8 | 9 | 10 | 11 | 12 | 13 => Or.inl rfl
  | _+14 => Or.inr rfl

/-- Parser::program exhausts every amount of fuel on the stray-semicolon
vector: each loop iteration repeats the identical parser state, so the run
never completes. -/
theorem program_diverges_on_stray_semicolon (f : Nat) :
    program f semiToks = .error .fuel := by
  induction f using Nat.strong_induction_on with
  | _ f ih =>
    match f with
    | 0 => rfl
    | g+1 =>
      have ihg := ih g (Nat.lt_succ_self g)
      simp only [semiToks] at ihg
      rcases declaration_semi_no_progress g with h | h <;>
        simp only [semiToks] at h <;>
        simp [program, semiToks, h, ihg]

/-- Claim C9. The parsing loop of Parser::program does not always make
progress toward EOF: on a token that matches no production (a lone
semicolon), declaration returns None with the cursor unmoved, and program
repeats the identical state forever, exhausting any fuel budget. -/
theorem program_stuck_on_stray_semicolon :
    declaration 50 semiToks = .ok (none, semiToks)
    ∧ program 1000 semiToks = .error .fuel :=
  ⟨rfl, program_diverges_on_stray_semicolon 1000⟩

/-- In contrast, Parser::program does terminate on well-formed inputs: a
program of n print statements parses, within fuel linear in n, to the n
corresponding Print statements. -/
theorem program_terminates_on_print_programs (n : Nat) :
    program (n + 16) (printProgramToks n)
      = .ok (List.replicate n (.PrintStatement (.LiteralExpr .Number "1"))) := by
  induction n with
  | zero => rfl
  | succ n ih =>
    have step : program (n + 1 + 16) (printProgramToks (n + 1))
        = match program (n + 16) (printProgramToks n) with
          | .error er => .error er
          | .ok l => .ok (.PrintStatement (.LiteralExpr .Number "1") :: l) := rfl
    rw [step, ih]
    rfl

end RustLox
